import Mathlib

/-!
Verification of `parcel_extractor.py` (Ohio parcel extractor).

The program is a linear pipeline: parse a bounding-box string, reproject it,
issue one HTTP query, convert the returned GeoJSON feature collection to DXF
entities, and optionally export a metadata JSON file.

Shallow embedding conventions:
* Python floats are modelled as rationals (`ℚ`).
* Python `float(token)` is abstracted as a parameter `floatOf : String → Option ℚ`
  (`none` models a `ValueError`).
* The pyproj coordinate transform is abstracted as a parameter
  `transform : ℚ × ℚ → ℚ × ℚ`.
* The network is abstracted as a `FetchOutcome` parameter describing what the
  single request would return.
* A Python exception that a function does not catch is modelled by `none` /
  an explicit `Termination.crashed` outcome.
-/

set_option autoImplicit false

namespace ParcelExtractor

/-- Zone option of the CLI: the two Ohio State-Plane zones. -/
inductive Zone where
  | north
  | south
deriving DecidableEq

/-- Constant `SERVICE_URL` from the source. -/
def SERVICE_URL : String :=
  "https://gis.ohiodnr.gov/arcgis_site2/rest/services/OIT_Services/odnr_landbase_v2/MapServer/4/query"

/-- Constant `STATE_PLANE` from the source: zone to EPSG code (ft-US). -/
def STATE_PLANE : Zone → Nat
  | .north => 3734
  | .south => 3735

/-- Constant `SERVICE_SRID` from the source: Web-Mercator (EPSG:3857). -/
def SERVICE_SRID : Nat := 3857

/-- Constant `DEFAULT_FIELDS` from the source. -/
def DEFAULT_FIELDS : String := "PIN,OWNER1,OWNER2,ADDRESS,CITY,STATE,ZIP,ACRES"

/-- Point of a ring: an (x, y) coordinate pair. -/
abbrev Point : Type := ℚ × ℚ

/-- Ring of a polygon: a vertex sequence (closing vertex typically repeated). -/
abbrev Ring : Type := List Point

/-- Geometry of a GeoJSON feature as consumed by `geojson_to_dxf`: a Polygon
holds one list of rings, a MultiPolygon a list of ring lists. -/
inductive Geometry where
  | polygon (rings : List Ring)
  | multiPolygon (polys : List (List Ring))
deriving DecidableEq

/-- Feature of a GeoJSON collection: a geometry and an optional properties
mapping (`feat.get "properties"` in the source; `none` models a missing key). -/
structure Feature where
  geometry : Geometry
  properties : Option (List (String × String))
deriving DecidableEq

/-- GeoJSON feature collection: `gj.get "features"` in the source; an absent or
empty features array is modelled as the empty list. -/
structure GeoJson where
  features : List Feature
deriving DecidableEq

/-- Error reported by the CLI bounding-box parser (spec taxonomy name). -/
inductive CliError where
  | InvalidArgument
deriving DecidableEq

/-- Helper for `splitComma`: accumulate the current token (in reverse) and cut
at each comma. -/
def splitCommaAux : List Char → List Char → List String
  | [], acc => [String.mk acc.reverse]
  | c :: cs, acc =>
    if c = ',' then String.mk acc.reverse :: splitCommaAux cs []
    else splitCommaAux cs (c :: acc)

/-- Python `bbox.split(",")`: split on every comma occurrence, keeping empty
pieces (so the empty string yields one empty token). -/
def splitComma (s : String) : List String :=
  splitCommaAux s.data []

/-- Helper modelling `map(float, bbox.split(","))` materialised by tuple
unpacking: every token must parse, otherwise a `ValueError` (`none`). -/
def parseTokens (floatOf : String → Option ℚ) : List String → Option (List ℚ)
  | [] => some []
  | t :: ts =>
    match floatOf t, parseTokens floatOf ts with
    | some v, some vs => some (v :: vs)
    | _, _ => none

/-- Bounding-box parsing in `main` (lines 209-216): split on commas, convert
each token with `float`, unpack into exactly four values; any `ValueError`
is reported and the process exits with status 1. -/
def parseBbox (floatOf : String → Option ℚ) (s : String) :
    Except CliError (ℚ × ℚ × ℚ × ℚ) :=
  match parseTokens floatOf (splitComma s) with
  | some [a, b, c, d] => .ok (a, b, c, d)
  | _ => .error .InvalidArgument

/-- Function `bbox_stateplane_to_service` from the source: transform the
(xmin, ymin) and (xmax, ymax) corners independently, then normalise with
min/max. The pyproj transformer for the selected zone is the `transform`
parameter. -/
def bbox_stateplane_to_service (transform : ℚ × ℚ → ℚ × ℚ)
    (bbox : ℚ × ℚ × ℚ × ℚ) : ℚ × ℚ × ℚ × ℚ :=
  let xmin := bbox.1
  let ymin := bbox.2.1
  let xmax := bbox.2.2.1
  let ymax := bbox.2.2.2
  let p0 := transform (xmin, ymin)
  let p1 := transform (xmax, ymax)
  (min p0.1 p1.1, min p0.2 p1.2, max p0.1 p1.1, max p0.2 p1.2)

/-- HTTP request issued by `fetch_parcels`: method, URL, ordered query
parameters (all rendered as strings, as `requests` does), timeout seconds. -/
structure Request where
  method : String
  url : String
  params : List (String × String)
  timeout : ℚ
deriving DecidableEq

/-- Rendering of the `geometry` query parameter from the envelope. -/
def geometryParam (env : ℚ × ℚ × ℚ × ℚ) : String :=
  toString env.1 ++ "," ++ toString env.2.1 ++ ","
    ++ toString env.2.2.1 ++ "," ++ toString env.2.2.2

/-- Request constructed by `fetch_parcels` (lines 59-72 of the source). -/
def fetch_request (env : ℚ × ℚ × ℚ × ℚ) (zone : Zone) (fields : String) :
    Request where
  method := "GET"
  url := SERVICE_URL
  params :=
    [("f", "geojson"),
     ("geometryType", "esriGeometryEnvelope"),
     ("geometry", geometryParam env),
     ("inSR", toString SERVICE_SRID),
     ("outSR", toString (STATE_PLANE zone)),
     ("outFields", fields),
     ("returnGeometry", "true"),
     ("where", "1=1")]
  timeout := 60

/-- Outcome of the single network call, abstracting the environment:
`ok` is a parsed JSON body, `requestException` covers timeout, connection
error and the non-2xx `raise_for_status` path, `jsonDecodeError` a body that
is not valid JSON. -/
inductive FetchOutcome where
  | ok (gj : GeoJson)
  | requestException (msg : String)
  | jsonDecodeError (msg : String)

/-- Function `fetch_parcels` from the source: issues exactly one request and
either returns the parsed collection or echoes the error and raises
`SystemExit(1)` (modelled as `Except.error 1`). The first component is the
list of requests issued. -/
def fetch_parcels (env : ℚ × ℚ × ℚ × ℚ) (zone : Zone) (fields : String)
    (outcome : FetchOutcome) : List Request × Except Nat GeoJson :=
  ([fetch_request env zone fields],
    match outcome with
    | .ok gj => .ok gj
    | .requestException _ => .error 1
    | .jsonDecodeError _ => .error 1)

/-- DXF modelspace entity added by `geojson_to_dxf`: a lightweight polyline
(`msp.add_lwpolyline`) or a text entity (`msp.add_text`). -/
inductive Entity where
  | lwpolyline (points : Ring) (closed : Bool) (layer : String)
  | text (content : String) (layer : String) (height : ℚ) (insert : Point)
deriving DecidableEq

/-- Predicate selecting the polyline entities of a document. -/
def Entity.isPolyline : Entity → Bool
  | .lwpolyline _ _ _ => true
  | .text _ _ _ _ => false

/-- Ring sets of a geometry, as computed at lines 101-105 of the source: a
Polygon contributes its ring list as the single ring set, a MultiPolygon one
ring set per member polygon. -/
def ringSets : Geometry → List (List Ring)
  | .polygon rings => [rings]
  | .multiPolygon polys => polys

/-- Truthiness test `props.get("PIN")` of line 117: the key is present with a
non-empty string value. -/
def pinTruthy (props : List (String × String)) : Bool :=
  match props.lookup "PIN" with
  | some s => s ≠ ""
  | none => false

/-- Body of the inner `for rings in rings_sets` loop (lines 107-136): emit the
closed exterior polyline on layer PARCELS and, when labels are requested and
PIN is truthy, the two-line label text at the vertex mean. `none` models an
uncaught `IndexError` (`rings[0]` on an empty ring list) or
`ZeroDivisionError` (mean of an empty exterior ring). -/
def processRings (props : List (String × String)) (include_attributes : Bool)
    (rings : List Ring) : Option (List Entity) :=
  match rings with
  | [] => none
  | exterior :: _ =>
    let poly := Entity.lwpolyline exterior true "PARCELS"
    if include_attributes && pinTruthy props then
      if exterior.length = 0 then none
      else
        let cx := (exterior.map Prod.fst).sum / (exterior.length : ℚ)
        let cy := (exterior.map Prod.snd).sum / (exterior.length : ℚ)
        let pin := (props.lookup "PIN").getD ""
        let owner := (props.lookup "OWNER1").getD ""
        some [poly,
          Entity.text ("PIN: " ++ pin ++ "\n" ++ "Owner: " ++ owner)
            "LABELS" 10 (cx, cy)]
    else some [poly]

/-- Iteration of `processRings` over the ring sets of one feature. -/
def processRingSets (props : List (String × String))
    (include_attributes : Bool) : List (List Ring) → Option (List Entity)
  | [] => some []
  | rings :: rest =>
    match processRings props include_attributes rings with
    | none => none
    | some es =>
      match processRingSets props include_attributes rest with
      | none => none
      | some rest' => some (es ++ rest')

/-- Outer `for i, feat in enumerate(geojson["features"])` loop of
`geojson_to_dxf`. -/
def processFeatures (include_attributes : Bool) :
    List Feature → Option (List Entity)
  | [] => some []
  | feat :: rest =>
    match
      processRingSets (feat.properties.getD []) include_attributes
        (ringSets feat.geometry)
    with
    | none => none
    | some es =>
      match processFeatures include_attributes rest with
      | none => none
      | some rest' => some (es ++ rest')

/-- Function `geojson_to_dxf` from the source, returning the ordered list of
modelspace entities of the saved document (`none` models an uncaught
exception). -/
def geojson_to_dxf (gj : GeoJson) (include_attributes : Bool) :
    Option (List Entity) :=
  processFeatures include_attributes gj.features

/-- Metadata object built by `export_metadata` (lines 145-152). -/
structure Metadata where
  total_parcels : Nat
  parcels : List (List (String × String))
deriving DecidableEq

/-- Function `export_metadata` from the source: the structured content of the
JSON file it writes (the file write itself is not modelled). -/
def export_metadata (gj : GeoJson) : Metadata where
  total_parcels := gj.features.length
  parcels := gj.features.map (fun f => f.properties.getD [])

/-- Process termination: a `SystemExit` / normal return with an exit code, or
an uncaught exception (carrying the Python exception description). -/
inductive Termination where
  | exited (code : Nat)
  | crashed (exc : String)
deriving DecidableEq

/-- Observable result of one run of `main`: requests issued, entities of the
saved drawing file (`none` when no DXF was written), metadata object of the
written metadata file (`none` when none was written), and termination. -/
structure RunResult where
  requests : List Request
  dxfSaved : Option (List Entity)
  metadataSaved : Option Metadata
  term : Termination
deriving DecidableEq

/-- CLI entry point `main` from the source (lines 199-260). The boolean CLI
flag parameter `export_metadata` shadows the module-level function of the
same name, so reaching line 249 calls a `bool` object and raises an uncaught
`TypeError`; the model reproduces this as a `crashed` termination with no
metadata file written (the DXF was already saved at line 243). An uncaught
exception inside `geojson_to_dxf` likewise crashes the run. -/
def main (floatOf : String → Option ℚ) (transform : ℚ × ℚ → ℚ × ℚ)
    (outcome : FetchOutcome) (bbox : String) (zone : Zone) (fields : String)
    (include_labels export_metadata_flag : Bool) : RunResult :=
  match parseBbox floatOf bbox with
  | .error _ => ⟨[], none, none, .exited 1⟩
  | .ok parsed =>
    let env := bbox_stateplane_to_service transform parsed
    let fp := fetch_parcels env zone fields outcome
    match fp.2 with
    | .error code => ⟨fp.1, none, none, .exited code⟩
    | .ok gj =>
      if gj.features.isEmpty then ⟨fp.1, none, none, .exited 1⟩
      else
        match geojson_to_dxf gj include_labels with
        | none => ⟨fp.1, none, none, .crashed "IndexError or ZeroDivisionError"⟩
        | some es =>
          if export_metadata_flag then
            ⟨fp.1, some es, none, .crashed "TypeError: bool object is not callable"⟩
          else ⟨fp.1, some es, none, .exited 0⟩

/-- Ring sets of all features in order, flattened: the sequence the two nested
loops of `geojson_to_dxf` iterate over. -/
def allRingSets (gj : GeoJson) : List (List Ring) :=
  (gj.features.map (fun f => ringSets f.geometry)).flatten

/-- Geometry precondition under which `geojson_to_dxf` is total: every ring
set is non-empty and every exterior ring has at least one vertex. -/
def GeomPre (gj : GeoJson) : Prop :=
  ∀ f ∈ gj.features, ∀ rings ∈ ringSets f.geometry,
    rings ≠ [] ∧ rings.headD [] ≠ []

/-- Sample stand-in for Python `float` used by concrete witnesses: it parses
the one-digit tokens that appear in them. -/
def floatOf0 : String → Option ℚ
  | "1" => some 1
  | "2" => some 2
  | "3" => some 3
  | "4" => some 4
  | _ => none

/-- Square exterior ring of the spec's worked example, closing vertex
repeated. -/
def sqRing : Ring := [(0, 0), (10, 0), (10, 10), (0, 10), (0, 0)]

/-- Feature holding the square Polygon with a PIN and an owner. -/
def sqFeature : Feature :=
  ⟨.polygon [sqRing], some [("PIN", "123"), ("OWNER1", "ACME")]⟩

/-- MultiPolygon feature with two sub-polygons, used by the C5 example. -/
def mpFeature : Feature :=
  ⟨.multiPolygon [[[(0, 0), (1, 0), (1, 1), (0, 0)]],
                  [[(2, 2), (3, 2), (3, 3), (2, 2)]]], none⟩

/-- Feature collection of the C5 example: one Polygon and one MultiPolygon
with two sub-polygons. -/
def gjExample : GeoJson := ⟨[sqFeature, mpFeature]⟩

/-- Entities `geojson_to_dxf` produces for `gjExample` without labels. -/
def esExample : List Entity :=
  [.lwpolyline sqRing true "PARCELS",
   .lwpolyline [(0, 0), (1, 0), (1, 1), (0, 0)] true "PARCELS",
   .lwpolyline [(2, 2), (3, 2), (3, 3), (2, 2)] true "PARCELS"]

/-! Helper lemmas. -/

/-- Successful token conversion preserves the token count. -/
theorem parseTokens_length (floatOf : String → Option ℚ) :
    ∀ (l : List String) (vs : List ℚ),
      parseTokens floatOf l = some vs → vs.length = l.length
  | [], vs, h => by
    simp [parseTokens] at h
    simp [← h]
  | t :: ts, vs, h => by
    dsimp [parseTokens] at h
    cases hf : floatOf t with
    | none => rw [hf] at h; exact absurd h (by simp)
    | some v =>
      rw [hf] at h
      cases hr : parseTokens floatOf ts with
      | none => rw [hr] at h; exact absurd h (by simp)
      | some ws =>
        rw [hr] at h
        simp only [Option.some.injEq] at h
        subst h
        simp [parseTokens_length floatOf ts ws hr]

/-- One unconvertible token makes the whole conversion fail. -/
theorem parseTokens_eq_none (floatOf : String → Option ℚ) :
    ∀ (l : List String) (t : String), t ∈ l → floatOf t = none →
      parseTokens floatOf l = none
  | [], t, ht, _ => absurd ht (List.not_mem_nil t)
  | u :: us, t, ht, hf => by
    rcases List.mem_cons.mp ht with h | h
    · subst h
      simp [parseTokens, hf]
    · dsimp [parseTokens]
      rw [parseTokens_eq_none floatOf us t h hf]
      cases floatOf u <;> rfl

/-! Claim theorems. -/

/-- Claim C4: the reprojector transforms only the two corners independently
and returns (min of the transformed Xs, min of the transformed Ys, max of the
transformed Xs, max of the transformed Ys), so the result always satisfies
xmin ≤ xmax and ymin ≤ ymax, whatever the underlying transform produces. -/
theorem C4_reproject_normalized (transform : ℚ × ℚ → ℚ × ℚ)
    (xmin ymin xmax ymax : ℚ) :
    bbox_stateplane_to_service transform (xmin, ymin, xmax, ymax)
      = (min (transform (xmin, ymin)).1 (transform (xmax, ymax)).1,
         min (transform (xmin, ymin)).2 (transform (xmax, ymax)).2,
         max (transform (xmin, ymin)).1 (transform (xmax, ymax)).1,
         max (transform (xmin, ymin)).2 (transform (xmax, ymax)).2)
    ∧ (bbox_stateplane_to_service transform (xmin, ymin, xmax, ymax)).1
        ≤ (bbox_stateplane_to_service transform (xmin, ymin, xmax, ymax)).2.2.1
    ∧ (bbox_stateplane_to_service transform (xmin, ymin, xmax, ymax)).2.1
        ≤ (bbox_stateplane_to_service transform (xmin, ymin, xmax, ymax)).2.2.2 := by
  refine ⟨rfl, ?_, ?_⟩ <;> simp [bbox_stateplane_to_service, min_le_max]

/-- Claim C9: the metadata object satisfies total_parcels = length of the
parcels list, and the parcels list is the sequence of each feature's
properties mapping in original order, a missing properties key contributing
the empty mapping. -/
theorem C9_metadata_invariant (gj : GeoJson) :
    (export_metadata gj).total_parcels = (export_metadata gj).parcels.length
    ∧ (export_metadata gj).parcels
        = gj.features.map (fun f => f.properties.getD []) := by
  constructor
  · simp [export_metadata]
  · rfl

/-- Claim C8: the fetcher issues exactly one GET request to the fixed
endpoint with f=geojson, geometryType=esriGeometryEnvelope, geometry the
comma-rendered envelope, inSR the fixed service code 3857, outSR the zone's
State-Plane code (3734 north, 3735 south), outFields the field list,
returnGeometry=true, where=1=1, and a 60-second timeout. -/
theorem C8_request_construction (env : ℚ × ℚ × ℚ × ℚ) (zone : Zone)
    (fields : String) (outcome : FetchOutcome) :
    (fetch_parcels env zone fields outcome).1 = [fetch_request env zone fields]
    ∧ (fetch_request env zone fields).method = "GET"
    ∧ (fetch_request env zone fields).url = SERVICE_URL
    ∧ (fetch_request env zone fields).params
        = [("f", "geojson"),
           ("geometryType", "esriGeometryEnvelope"),
           ("geometry", geometryParam env),
           ("inSR", toString SERVICE_SRID),
           ("outSR", toString (STATE_PLANE zone)),
           ("outFields", fields),
           ("returnGeometry", "true"),
           ("where", "1=1")]
    ∧ (fetch_request env zone fields).timeout = 60
    ∧ SERVICE_SRID = 3857
    ∧ STATE_PLANE Zone.north = 3734 ∧ STATE_PLANE Zone.south = 3735 :=
  ⟨rfl, rfl, rfl, rfl, rfl, rfl, rfl, rfl⟩

/-- Claim C3: a bbox string splitting into exactly four numeric tokens parses
to exactly those four values in order; when the comma-split token count is
not four or some token is non-numeric, the parser reports InvalidArgument and
the run exits with status 1. -/
theorem C3_bbox_parsing (floatOf : String → Option ℚ) (s : String) :
    (∀ t1 t2 t3 t4 v1 v2 v3 v4,
        splitComma s = [t1, t2, t3, t4] →
        floatOf t1 = some v1 → floatOf t2 = some v2 →
        floatOf t3 = some v3 → floatOf t4 = some v4 →
        parseBbox floatOf s = .ok (v1, v2, v3, v4))
    ∧ ((splitComma s).length ≠ 4 ∨ (∃ t ∈ splitComma s, floatOf t = none) →
        parseBbox floatOf s = .error .InvalidArgument
        ∧ ∀ transform outcome zone fields il em,
            (main floatOf transform outcome s zone fields il em).term
              = .exited 1
            ∧ (main floatOf transform outcome s zone fields il em).dxfSaved
              = none) := by
  constructor
  · intro t1 t2 t3 t4 v1 v2 v3 v4 hs h1 h2 h3 h4
    unfold parseBbox
    rw [hs]
    simp [parseTokens, h1, h2, h3, h4]
  · intro hbad
    have herr : parseBbox floatOf s = .error .InvalidArgument := by
      unfold parseBbox
      rcases hbad with hlen | ⟨t, ht, hf⟩
      · cases hp : parseTokens floatOf (splitComma s) with
        | none => rfl
        | some vs =>
          have hvs : vs.length = (splitComma s).length :=
            parseTokens_length floatOf _ _ hp
          rcases vs with _ | ⟨a, _ | ⟨b, _ | ⟨c, _ | ⟨d, _ | ⟨e, vs⟩⟩⟩⟩⟩
          · rfl
          · rfl
          · rfl
          · rfl
          · exact absurd (hvs ▸ rfl) hlen
          · rfl
      · rw [parseTokens_eq_none floatOf _ t ht hf]
    refine ⟨herr, ?_⟩
    intro transform outcome zone fields il em
    constructor <;> simp [main, herr]

/-- Witness for C3 at concrete inputs: the string 1,2,3,4 parses to
(1, 2, 3, 4) and the two-token string a,b is rejected. -/
theorem C3_bbox_parsing_witness :
    parseBbox floatOf0 "1,2,3,4" = .ok (1, 2, 3, 4)
    ∧ parseBbox floatOf0 "a,b" = .error .InvalidArgument :=
  ⟨(C3_bbox_parsing floatOf0 "1,2,3,4").1 "1" "2" "3" "4" 1 2 3 4
      (by decide) rfl rfl rfl rfl,
    ((C3_bbox_parsing floatOf0 "a,b").2 (Or.inl (by decide))).1⟩

/-- Claim C6: when the fetched response parses but holds zero features, the
run reports it and exits with a non-zero status, and no drawing file is
written (the drawing build runs only after the non-empty check). -/
theorem C6_empty_features (floatOf : String → Option ℚ)
    (transform : ℚ × ℚ → ℚ × ℚ) (bbox : String) (zone : Zone)
    (fields : String) (il em : Bool) (v : ℚ × ℚ × ℚ × ℚ) (gj : GeoJson)
    (hparse : parseBbox floatOf bbox = .ok v) (hempty : gj.features = []) :
    (main floatOf transform (.ok gj) bbox zone fields il em).term = .exited 1
    ∧ (main floatOf transform (.ok gj) bbox zone fields il em).dxfSaved = none
    ∧ (main floatOf transform (.ok gj) bbox zone fields il em).metadataSaved
      = none := by
  refine ⟨?_, ?_, ?_⟩ <;> simp [main, hparse, fetch_parcels, hempty]

/-- Witness for C6 at concrete inputs: a run whose fetch returns an empty
collection exits with 1 and writes nothing. -/
theorem C6_empty_features_witness :
    (main floatOf0 id (.ok ⟨[]⟩) "1,2,3,4" .south DEFAULT_FIELDS false
        false).term = .exited 1
    ∧ (main floatOf0 id (.ok ⟨[]⟩) "1,2,3,4" .south DEFAULT_FIELDS false
        false).dxfSaved = none
    ∧ (main floatOf0 id (.ok ⟨[]⟩) "1,2,3,4" .south DEFAULT_FIELDS false
        false).metadataSaved = none :=
  C6_empty_features floatOf0 id "1,2,3,4" .south DEFAULT_FIELDS false false
    (1, 2, 3, 4) ⟨[]⟩ rfl rfl

/-- Claim C7: when the single HTTP request fails with a transport error
(timeout, connection error, or non-2xx status), the process exits with
status 1, exactly one request was issued (no retry), and no drawing or
metadata file is written. -/
theorem C7_network_failure (floatOf : String → Option ℚ)
    (transform : ℚ × ℚ → ℚ × ℚ) (bbox : String) (zone : Zone)
    (fields msg : String) (il em : Bool) (v : ℚ × ℚ × ℚ × ℚ)
    (hparse : parseBbox floatOf bbox = .ok v) :
    (main floatOf transform (.requestException msg) bbox zone fields il
        em).term = .exited 1
    ∧ (main floatOf transform (.requestException msg) bbox zone fields il
        em).dxfSaved = none
    ∧ (main floatOf transform (.requestException msg) bbox zone fields il
        em).metadataSaved = none
    ∧ (main floatOf transform (.requestException msg) bbox zone fields il
        em).requests.length = 1 := by
  refine ⟨?_, ?_, ?_, ?_⟩ <;> simp [main, hparse, fetch_parcels]

/-- Witness for C7 at concrete inputs: a timed-out fetch exits with 1 after
one request and writes nothing. -/
theorem C7_network_failure_witness :
    (main floatOf0 id (.requestException "timeout") "1,2,3,4" .south
        DEFAULT_FIELDS false false).term = .exited 1
    ∧ (main floatOf0 id (.requestException "timeout") "1,2,3,4" .south
        DEFAULT_FIELDS false false).dxfSaved = none
    ∧ (main floatOf0 id (.requestException "timeout") "1,2,3,4" .south
        DEFAULT_FIELDS false false).metadataSaved = none
    ∧ (main floatOf0 id (.requestException "timeout") "1,2,3,4" .south
        DEFAULT_FIELDS false false).requests.length = 1 :=
  C7_network_failure floatOf0 id "1,2,3,4" .south DEFAULT_FIELDS "timeout"
    false false (1, 2, 3, 4) rfl

/-- Claim C1 (code bug): in `main` the boolean flag parameter
`export_metadata` shadows the function `export_metadata`, so a run with the
flag set and a non-empty fetch saves the DXF and then crashes with an
uncaught TypeError at line 249; no metadata file is ever written, contrary
to the documented contract. -/
theorem C1_export_metadata_crash :
    (main floatOf0 id (.ok ⟨[sqFeature]⟩) "1,2,3,4" .south DEFAULT_FIELDS
        false true).metadataSaved = none
    ∧ (main floatOf0 id (.ok ⟨[sqFeature]⟩) "1,2,3,4" .south DEFAULT_FIELDS
        false true).term = .crashed "TypeError: bool object is not callable"
    ∧ (main floatOf0 id (.ok ⟨[sqFeature]⟩) "1,2,3,4" .south DEFAULT_FIELDS
        false true).dxfSaved = some [.lwpolyline sqRing true "PARCELS"] :=
  ⟨rfl, rfl, rfl⟩

/-- Claim C2, counterexample: for the square exterior ring with the closing
vertex repeated, the label insert point the writer computes is (4, 4) — the
mean over all five stored vertices — not (5, 5) as the claim states. -/
theorem C2_label_point_counterexample :
    geojson_to_dxf ⟨[sqFeature]⟩ true
      = some [.lwpolyline sqRing true "PARCELS",
          .text "PIN: 123\nOwner: ACME" "LABELS" 10 (4, 4)]
    ∧ ((4 : ℚ), (4 : ℚ)) ≠ ((5 : ℚ), (5 : ℚ)) := by
  constructor
  · simp [geojson_to_dxf, processFeatures, processRingSets, processRings,
      pinTruthy, sqFeature, sqRing, List.lookup]
    norm_num
  · simp

/-- Claim C2 as amended: with labels requested and a non-empty PIN, the
writer emits the closed exterior polyline on PARCELS and a two-line text
entity (PIN line, owner line) on LABELS at the unweighted arithmetic mean of
the exterior ring's vertices, the duplicated closing vertex included; for
the square ring of the worked example this point is (4, 4). -/
theorem C2_label_placement (exterior : Ring) (holes : List Ring)
    (props : List (String × String)) (pin : String)
    (hpin : props.lookup "PIN" = some pin) (hne : pin ≠ "")
    (hext : exterior ≠ []) :
    geojson_to_dxf ⟨[⟨.polygon (exterior :: holes), some props⟩]⟩ true
      = some [.lwpolyline exterior true "PARCELS",
          .text ("PIN: " ++ pin ++ "\n" ++ "Owner: "
              ++ (props.lookup "OWNER1").getD "")
            "LABELS" 10
            ((exterior.map Prod.fst).sum / (exterior.length : ℚ),
             (exterior.map Prod.snd).sum / (exterior.length : ℚ))] := by
  have hlen : exterior.length ≠ 0 := fun h => hext (List.length_eq_zero.mp h)
  simp [geojson_to_dxf, processFeatures, processRingSets, processRings,
    ringSets, pinTruthy, hpin, hne, hlen]

/-- Witness for the amended C2 at the square ring: the emitted label sits at
(4, 4). -/
theorem C2_label_placement_witness :
    geojson_to_dxf ⟨[⟨.polygon [sqRing], some [("PIN", "123"),
        ("OWNER1", "ACME")]⟩]⟩ true
      = some [.lwpolyline sqRing true "PARCELS",
          .text "PIN: 123\nOwner: ACME" "LABELS" 10 (4, 4)] := by
  have h := C2_label_placement sqRing [] [("PIN", "123"), ("OWNER1", "ACME")]
    "123" rfl (by decide) (by decide)
  rw [h]
  norm_num [sqRing, List.lookup]
  decide

/-- Polyline entities emitted for one ring set: exactly the closed exterior
polyline on PARCELS, whatever the label branch adds. -/
theorem processRings_filter (props : List (String × String)) (ia : Bool)
    (rings : List Ring) (es : List Entity)
    (h : processRings props ia rings = some es) :
    es.filter Entity.isPolyline
      = [.lwpolyline (rings.headD []) true "PARCELS"] := by
  cases rings with
  | nil => simp [processRings] at h
  | cons exterior rest =>
    dsimp [processRings] at h
    by_cases hc : (ia && pinTruthy props) = true
    · rw [if_pos hc] at h
      by_cases hlen : exterior.length = 0
      · rw [if_pos hlen] at h
        exact absurd h (by simp)
      · rw [if_neg hlen] at h
        simp only [Option.some.injEq] at h
        subst h
        simp [Entity.isPolyline]
    · rw [if_neg hc] at h
      simp only [Option.some.injEq] at h
      subst h
      simp [Entity.isPolyline]

/-- Polyline entities emitted for a list of ring sets: one closed PARCELS
polyline per ring set, in order. -/
theorem processRingSets_filter (props : List (String × String)) (ia : Bool) :
    ∀ (rsets : List (List Ring)) (es : List Entity),
      processRingSets props ia rsets = some es →
      es.filter Entity.isPolyline
        = rsets.map (fun rings => .lwpolyline (rings.headD []) true "PARCELS")
  | [], es, h => by
    dsimp [processRingSets] at h
    simp only [Option.some.injEq] at h
    subst h
    rfl
  | rings :: rest, es, h => by
    dsimp [processRingSets] at h
    cases h1 : processRings props ia rings with
    | none => rw [h1] at h; exact absurd h (by simp)
    | some es1 =>
      rw [h1] at h
      cases h2 : processRingSets props ia rest with
      | none => rw [h2] at h; exact absurd h (by simp)
      | some es2 =>
        rw [h2] at h
        simp only [Option.some.injEq] at h
        subst h
        simp [List.filter_append, processRings_filter props ia rings es1 h1,
          processRingSets_filter props ia rest es2 h2]

/-- Polyline entities emitted for a feature list: one closed PARCELS polyline
per ring set of each feature, in order. -/
theorem processFeatures_filter (ia : Bool) :
    ∀ (feats : List Feature) (es : List Entity),
      processFeatures ia feats = some es →
      es.filter Entity.isPolyline
        = ((feats.map (fun f => ringSets f.geometry)).flatten).map
            (fun rings => .lwpolyline (rings.headD []) true "PARCELS")
  | [], es, h => by
    dsimp [processFeatures] at h
    simp only [Option.some.injEq] at h
    subst h
    rfl
  | feat :: rest, es, h => by
    dsimp [processFeatures] at h
    cases h1 : processRingSets (feat.properties.getD []) ia
        (ringSets feat.geometry) with
    | none => rw [h1] at h; exact absurd h (by simp)
    | some es1 =>
      rw [h1] at h
      cases h2 : processFeatures ia rest with
      | none => rw [h2] at h; exact absurd h (by simp)
      | some es2 =>
        rw [h2] at h
        simp only [Option.some.injEq] at h
        subst h
        simp [List.filter_append,
          processRingSets_filter (feat.properties.getD []) ia
            (ringSets feat.geometry) es1 h1,
          processFeatures_filter ia rest es2 h2]

/-- Claim C5: whenever the writer succeeds, its polyline entities are exactly
one closed polyline on the PARCELS layer per ring set — one per Polygon, one
per MultiPolygon member — in order, each using ring index 0 verbatim. -/
theorem C5_parcel_polylines (gj : GeoJson) (flag : Bool) (es : List Entity)
    (h : geojson_to_dxf gj flag = some es) :
    es.filter Entity.isPolyline
      = (allRingSets gj).map
          (fun rings => .lwpolyline (rings.headD []) true "PARCELS") := by
  unfold allRingSets
  exact processFeatures_filter flag gj.features es h

/-- Witness for C5 at the worked example: one Polygon plus one MultiPolygon
with two sub-polygons yield exactly 3 closed polylines, all on PARCELS. -/
theorem C5_parcel_polylines_witness :
    geojson_to_dxf gjExample false = some esExample
    ∧ esExample.filter Entity.isPolyline
      = (allRingSets gjExample).map
          (fun rings => .lwpolyline (rings.headD []) true "PARCELS")
    ∧ (esExample.filter Entity.isPolyline).length = 3 :=
  ⟨by decide, C5_parcel_polylines gjExample false esExample (by decide),
    by decide⟩

/-- Processing one ring set cannot raise when the ring set is non-empty and
its exterior ring has a vertex. -/
theorem processRings_isSome (props : List (String × String)) (ia : Bool)
    (rings : List Ring) (h1 : rings ≠ []) (h2 : rings.headD [] ≠ []) :
    (processRings props ia rings).isSome := by
  cases rings with
  | nil => exact absurd rfl h1
  | cons exterior rest =>
    simp only [List.headD_cons] at h2
    have hlen : exterior.length ≠ 0 :=
      fun h => h2 (List.length_eq_zero.mp h)
    dsimp [processRings]
    by_cases hc : (ia && pinTruthy props) = true
    · simp [hc, hlen]
    · simp [hc]

/-- Processing a ring-set list cannot raise when every ring set satisfies the
geometry precondition. -/
theorem processRingSets_isSome (props : List (String × String)) (ia : Bool) :
    ∀ rsets : List (List Ring),
      (∀ rings ∈ rsets, rings ≠ [] ∧ rings.headD [] ≠ []) →
      (processRingSets props ia rsets).isSome
  | [], _ => by simp [processRingSets]
  | rings :: rest, h => by
    have h1 := h rings (List.mem_cons_self rings rest)
    have hs := processRings_isSome props ia rings h1.1 h1.2
    have hrec := processRingSets_isSome props ia rest
      (fun r hr => h r (List.mem_cons_of_mem _ hr))
    dsimp [processRingSets]
    cases hp : processRings props ia rings with
    | none => rw [hp] at hs; exact absurd hs (by simp)
    | some es1 =>
      cases hq : processRingSets props ia rest with
      | none => rw [hq] at hrec; exact absurd hrec (by simp)
      | some es2 => simp

/-- Processing a feature list cannot raise when every feature satisfies the
geometry precondition. -/
theorem processFeatures_isSome (ia : Bool) :
    ∀ feats : List Feature,
      (∀ f ∈ feats, ∀ rings ∈ ringSets f.geometry,
        rings ≠ [] ∧ rings.headD [] ≠ []) →
      (processFeatures ia feats).isSome
  | [], _ => by simp [processFeatures]
  | feat :: rest, h => by
    have h1 := processRingSets_isSome (feat.properties.getD []) ia
      (ringSets feat.geometry) (h feat (List.mem_cons_self feat rest))
    have hrec := processFeatures_isSome ia rest
      (fun f hf => h f (List.mem_cons_of_mem _ hf))
    dsimp [processFeatures]
    cases hp : processRingSets (feat.properties.getD []) ia
        (ringSets feat.geometry) with
    | none => rw [hp] at h1; exact absurd h1 (by simp)
    | some es1 =>
      cases hq : processFeatures ia rest with
      | none => rw [hq] at hrec; exact absurd hrec (by simp)
      | some es2 => simp

/-- Claim C10: an empty ring set makes the exterior access raise, a
zero-vertex exterior ring with labels and a non-empty PIN makes the centroid
division raise, and under the precondition that every ring set is non-empty
with a non-empty exterior ring the writer is total. -/
theorem C10_geometry_safety :
    geojson_to_dxf ⟨[⟨.polygon [], none⟩]⟩ false = none
    ∧ geojson_to_dxf ⟨[⟨.polygon [[]], some [("PIN", "1")]⟩]⟩ true = none
    ∧ ∀ (gj : GeoJson) (flag : Bool), GeomPre gj →
        (geojson_to_dxf gj flag).isSome := by
  refine ⟨rfl, rfl, ?_⟩
  intro gj flag h
  exact processFeatures_isSome flag gj.features h

/-- Witness for C10 at the worked example: it satisfies the precondition and
the writer succeeds on it with labels enabled. -/
theorem C10_geometry_safety_witness :
    GeomPre gjExample ∧ (geojson_to_dxf gjExample true).isSome :=
  ⟨by unfold GeomPre; decide,
    C10_geometry_safety.2.2 gjExample true (by unfold GeomPre; decide)⟩

end ParcelExtractor
